import Mathlib

/-!
Verification development for the EthGrid plot-ownership contract
(src/contracts/EthGrid.sol). The contract state and the purchase
pipeline (validatePurchases, distributePurchaseFunds,
getPriceOfAuctionedZone, purchaseAreaWithData, setAuctionPrice) are
embedded as executable Lean functions. Machine integers are modelled as
Nat with explicit reduction modulo 2 ^ 256 exactly where the Solidity
code performs unchecked uint256 arithmetic on unconstrained inputs;
OpenZeppelin SafeMath operations are modelled as Option-valued checked
arithmetic. A failing require is modelled as an Except error; the
EVM reverts every state write of a failed transaction, which the
embedding expresses by returning the pre-state at the transaction
boundary (purchaseStep, auctionStep).
-/

namespace EthGrid

/-- Size of the uint256 value space. -/
def U256 : Nat := 2 ^ 256

/-- Size of the uint24 value space (coordinates in ZoneOwnership). -/
def U24 : Nat := 2 ^ 24

/-- GRID_WIDTH constant from EthGrid.sol. -/
def GRID_WIDTH : Nat := 250

/-- GRID_HEIGHT constant from EthGrid.sol. -/
def GRID_HEIGHT : Nat := 250

/-- INITIAL_AUCTION_PRICE constant from EthGrid.sol: 20000 gwei per pixel. -/
def INITIAL_AUCTION_PRICE : Nat := 20000 * 1000000000

/-- FEE_IN_THOUSANDS_OF_PERCENT constant from EthGrid.sol (1%). -/
def FEE_IN_THOUSANDS_OF_PERCENT : Nat := 1000

/-- MAXIMUM_PURCHASE_AREA constant from EthGrid.sol. -/
def MAXIMUM_PURCHASE_AREA : Nat := 1000

/-- Distinct failure conditions of the contract. Every Solidity require
that can abort an operation is tagged with the variant naming the
violated condition (the spec error taxonomy of section 7). -/
inductive Err where
  | boundsError
  | tilingShapeError
  | containmentError
  | areaMismatch
  | overlappingPieces
  | ownershipMismatch
  | holeConflict
  | notForSale
  | insufficientPayment
  | insufficientFee
  | notOwner
  | unknownRecord
  | overflow
deriving DecidableEq, Repr

/-- SafeMath.add: checked uint256 addition (fails on overflow). -/
def safeAdd (a b : Nat) : Option Nat :=
  if a + b < U256 then some (a + b) else none

/-- SafeMath.sub: checked uint256 subtraction (fails on underflow). -/
def safeSub (a b : Nat) : Option Nat :=
  if b ≤ a then some (a - b) else none

/-- SafeMath.mul: checked uint256 multiplication (fails on overflow). -/
def safeMul (a b : Nat) : Option Nat :=
  if a * b < U256 then some (a * b) else none

/-- Modelled from the spec: the struct Geometry.Rect of
src/contracts/Geometry.sol, which is not under src/. Section 4.1 of the
spec describes axis-aligned integer rectangles; the fields are uint256
in the source because validatePurchases constructs a Rect directly from
uint256 calldata values. -/
structure Rect where
  x : Nat
  y : Nat
  w : Nat
  h : Nat
deriving DecidableEq, Repr

/-- Modelled from the spec: Geometry.doRectanglesOverlap of the missing
src/contracts/Geometry.sol. Spec section 4.1: standard axis-aligned
overlap test, true iff the rectangles share positive area; touching
edges do not count. Stated with exact (unbounded) arithmetic, which for
non-negative integers is the positive-shared-area condition and never
wraps. -/
def doRectanglesOverlap (a b : Rect) : Bool :=
  decide (a.x < b.x + b.w) && decide (b.x < a.x + a.w) &&
  decide (a.y < b.y + b.h) && decide (b.y < a.y + a.h)

/-- Modelled from the spec: Geometry.computeRectOverlap of the missing
src/contracts/Geometry.sol. Spec section 4.1: the maximal rectangle
contained in both arguments; meaningful when the rectangles overlap,
which is established by a require before every call site in
EthGrid.sol. -/
def computeRectOverlap (a b : Rect) : Rect :=
  { x := max a.x b.x
    y := max a.y b.y
    w := min (a.x + a.w) (b.x + b.w) - max a.x b.x
    h := min (a.y + a.h) (b.y + b.h) - max a.y b.y }

/-- The struct ZoneOwnership of EthGrid.sol: a plot rectangle (uint24
coordinates) plus the owner address (modelled as a Nat). -/
structure ZoneOwnership where
  x : Nat
  y : Nat
  w : Nat
  h : Nat
  owner : Nat
deriving DecidableEq, Repr

/-- The struct ZoneData of EthGrid.sol. -/
structure ZoneData where
  ipfsHash : String
  url : String
deriving DecidableEq, Repr

/-- Pointwise map update, modelling assignment to a Solidity mapping. -/
def updMap {α : Type} (f : Nat → α) (k : Nat) (v : α) : Nat → α :=
  fun x => if x = k then v else f x

/-- The contract storage of EthGrid.sol: the append-only ownership
array and the three mappings keyed by zone id. Solidity mappings are
total functions with a zero default. -/
structure GridState where
  ownership : List ZoneOwnership
  data : Nat → ZoneData
  tokenIdToAuction : Nat → Nat
  holes : Nat → List Nat

/-- The rectangle of a ZoneOwnership as a Geometry.Rect. -/
def zoneRect (z : ZoneOwnership) : Rect :=
  ⟨z.x, z.y, z.w, z.h⟩

/-- One seller payout performed by distributePurchaseFunds:
(zone id paid for, amount transferred, seller address). -/
abbrev Payout := Nat × Nat × Nat

/-- Constructor of EthGrid.sol: one record covering the whole grid,
owned by the admin, priced at INITIAL_AUCTION_PRICE. -/
def initialState (admin : Nat) : GridState :=
  { ownership := [⟨0, 0, GRID_WIDTH, GRID_HEIGHT, admin⟩]
    data := updMap (fun _ => ⟨"", ""⟩) 0
      ⟨"Qmb51AikiN8p6JsEcCZgrV4d7C6d6uZnCmfmaT15VooUyv/img.svg", "https://www.ethplot.com/"⟩
    tokenIdToAuction := updMap (fun _ => 0) 0 INITIAL_AUCTION_PRICE
    holes := updMap (fun _ => []) 0 [] }

/-- ABI decoding of the uint24[4] purchase argument into the rectangle
to purchase (lines 279 to 280 of EthGrid.sol). Each calldata word is
reduced to the uint24 value range by the ABI type. -/
def parseTarget (purchase : List Nat) : Rect :=
  ⟨purchase.getD 0 0 % U24, purchase.getD 1 0 % U24,
   purchase.getD 2 0 % U24, purchase.getD 3 0 % U24⟩

/-- ABI decoding of purchasedAreas (uint256[]) into rectangles, four
words per rectangle (lines 301 to 303 of EthGrid.sol). -/
def parseRects : List Nat → List Rect
  | x :: y :: w :: h :: rest =>
      ⟨x % U256, y % U256, w % U256, h % U256⟩ :: parseRects rest
  | _ => []

/-- The four grid-bounds requires of validatePurchases (lines 283 to
286). The x ≥ 0 and y ≥ 0 halves are identically true on Nat. The sums
w + x and h + y cannot wrap because both operands are below 2 ^ 24. -/
def rectInGridBounds (tr : Rect) : Bool :=
  decide (tr.x < GRID_WIDTH) && decide (tr.y < GRID_HEIGHT) &&
  decide (0 < tr.w) && decide (tr.w + tr.x ≤ GRID_WIDTH) &&
  decide (0 < tr.h) && decide (tr.h + tr.y ≤ GRID_HEIGHT)

/-- The four shape requires on purchasedAreas and areaIndices
(lines 289 to 292 of EthGrid.sol). -/
def tilingShapeOk (purchasedAreas areaIndices : List Nat) : Bool :=
  decide (4 ≤ purchasedAreas.length) && decide (0 < areaIndices.length) &&
  decide (purchasedAreas.length % 4 = 0) &&
  decide (purchasedAreas.length / 4 = areaIndices.length)

/-- The containment requires used at lines 309 to 312 and again at
lines 186 to 189 of EthGrid.sol. The two sums on rectangle r are raw
uint256 additions on unconstrained calldata values, so they are reduced
modulo 2 ^ 256 exactly as the EVM computes them; the outer rectangle is
grid-sized in both call sites, so its sums are written reduced as well
(the reduction is the identity there). -/
def rectContainedMod (r outer : Rect) : Bool :=
  decide (outer.x ≤ r.x) && decide (outer.y ≤ r.y) &&
  decide ((r.x + r.w) % U256 ≤ (outer.x + outer.w) % U256) &&
  decide ((r.y + r.h) % U256 ≤ (outer.y + outer.h) % U256)

/-- The per-piece loop of validatePurchases (lines 299 to 313): builds
the running SafeMath total of piece areas and checks each piece is
contained in the rectangle being purchased. Area accumulation precedes
the containment requires, as in the source. -/
def checkPieces (tr : Rect) : List Rect → Nat → Except Err Nat
  | [], totalArea => .ok totalArea
  | r :: rest, totalArea =>
    match safeMul r.w r.h with
    | none => .error .overflow
    | some a =>
      match safeAdd totalArea a with
      | none => .error .overflow
      | some totalArea2 =>
        if rectContainedMod r tr then checkPieces tr rest totalArea2
        else .error .containmentError

/-- The all-pairs overlap requires of validatePurchases
(lines 318 to 322). -/
def noPairwiseOverlap : List Rect → Bool
  | [] => true
  | r :: rest =>
    rest.all (fun r2 => !doRectanglesOverlap r r2) && noPairwiseOverlap rest

/-- The hole loop of distributePurchaseFunds (lines 192 to 201): the
candidate piece must not overlap the rectangle of any record listed in
the holes of the zone it is bought from. -/
def checkHoles (s : GridState) (r : Rect) : List Nat → Except Err Unit
  | [] => .ok ()
  | holeId :: rest =>
    match s.ownership[holeId]? with
    | none => .error .unknownRecord
    | some hz =>
      if doRectanglesOverlap r (zoneRect hz) then .error .holeConflict
      else checkHoles s r rest

/-- getPriceOfAuctionedZone of EthGrid.sol (lines 338 to 344): requires
a positive per-pixel auction price and returns w * h * price with
SafeMath multiplication. -/
def getPriceOfAuctionedZone (s : GridState) (rectToPurchase : Rect)
    (auctionedZoneId : Nat) : Except Err Nat :=
  if 0 < s.tokenIdToAuction auctionedZoneId then
    match safeMul rectToPurchase.w rectToPurchase.h with
    | none => .error .overflow
    | some wh =>
      match safeMul wh (s.tokenIdToAuction auctionedZoneId) with
      | none => .error .overflow
      | some p => .ok p
  else .error .notForSale

/-- The flush condition at line 210 of EthGrid.sol: pay the current
seller when this is the last piece or the next piece names a different
ownership index. -/
def flushHere (ownershipIndex : Nat) : List (Rect × Nat) → Bool
  | [] => true
  | (_, nxt) :: _ => decide (ownershipIndex ≠ nxt)

/-- Result of distributePurchaseFunds: the balance left after all
seller payouts, and the list of payouts performed. -/
structure DistOut where
  remainingBalance : Nat
  payouts : List Payout
deriving DecidableEq, Repr

/-- The loop body of distributePurchaseFunds (lines 174 to 216),
iterating the pieces paired with their claimed ownership indices. The
source iterates areaIndices by position and reads rects at the same
position; validatePurchases always supplies lists of equal length, so
the pairing is the zip of the two lists. -/
def distLoop (s : GridState) (rectToPurchase : Rect) :
    List (Rect × Nat) → Nat → Nat → List Payout → Except Err DistOut
  | [], remainingBalance, _, payouts => .ok ⟨remainingBalance, payouts⟩
  | (r, ownershipIndex) :: rest, remainingBalance, owedToSeller, payouts =>
    match s.ownership[ownershipIndex]? with
    | none => .error .unknownRecord
    | some zone =>
      if doRectanglesOverlap rectToPurchase (zoneRect zone) then
        if rectContainedMod r (computeRectOverlap rectToPurchase (zoneRect zone)) then
          match checkHoles s r (s.holes ownershipIndex) with
          | .error e => .error e
          | .ok _ =>
            match getPriceOfAuctionedZone s r ownershipIndex with
            | .error e => .error e
            | .ok sectionPrice =>
              match safeSub remainingBalance sectionPrice with
              | none => .error .insufficientPayment
              | some rb2 =>
                match safeAdd owedToSeller sectionPrice with
                | none => .error .overflow
                | some owed2 =>
                  if flushHere ownershipIndex rest then
                    distLoop s rectToPurchase rest rb2 0
                      (payouts ++ [(ownershipIndex, owed2, zone.owner)])
                  else
                    distLoop s rectToPurchase rest rb2 owed2 payouts
        else .error .ownershipMismatch
      else .error .ownershipMismatch

/-- distributePurchaseFunds of EthGrid.sol (lines 169 to 276): starts
from remainingBalance = msg.value with an empty accumulator. -/
def distributePurchaseFunds (s : GridState) (rectToPurchase : Rect)
    (pairs : List (Rect × Nat)) (value : Nat) : Except Err DistOut :=
  distLoop s rectToPurchase pairs value 0 []

/-- validatePurchases of EthGrid.sol (lines 278 to 334). Returns the
purchase price together with the payouts performed while distributing
funds. Error tags follow the order of the requires in the source. -/
def validatePurchases (s : GridState) (purchase purchasedAreas areaIndices : List Nat)
    (value : Nat) : Except Err (Nat × List Payout) :=
  if purchase.length = 4 then
    if rectInGridBounds (parseTarget purchase) then
      if (parseTarget purchase).w * (parseTarget purchase).h < MAXIMUM_PURCHASE_AREA then
        if tilingShapeOk purchasedAreas areaIndices then
          match checkPieces (parseTarget purchase) (parseRects purchasedAreas) 0 with
          | .error e => .error e
          | .ok totalArea =>
            if totalArea = (parseTarget purchase).w * (parseTarget purchase).h then
              if noPairwiseOverlap (parseRects purchasedAreas) then
                match distributePurchaseFunds s (parseTarget purchase)
                    ((parseRects purchasedAreas).zip areaIndices) value with
                | .error e => .error e
                | .ok dout =>
                  match safeSub value dout.remainingBalance with
                  | none => .error .overflow
                  | some purchasePrice =>
                    match safeMul purchasePrice FEE_IN_THOUSANDS_OF_PERCENT with
                    | none => .error .overflow
                    | some feeNumerator =>
                      if feeNumerator / (1000 * 100) ≤ dout.remainingBalance then
                        .ok (purchasePrice, dout.payouts)
                      else .error .insufficientFee
              else .error .overlappingPieces
            else .error .areaMismatch
        else .error .tilingShapeError
      else .error .boundsError
    else .error .boundsError
  else .error .tilingShapeError

/-- The full observable outcome of a successful purchaseAreaWithData
call: the post-transaction storage, the seller payouts, the total price
(the argument of the PlotPurchased event), and the id of the new
record. -/
structure PurchaseOutcome where
  state : GridState
  payouts : List Payout
  totalPrice : Nat
  newZoneId : Nat

/-- purchaseAreaWithData of EthGrid.sol (lines 84 to 122): validate and
settle, then append a hole back-reference for every entry of
areaIndices, store the metadata and the initial auction price under the
new id, and append the new ownership record. All writes happen after
validatePurchases has succeeded, as in the source. -/
def purchaseAreaWithData (s : GridState) (purchase purchasedAreas areaIndices : List Nat)
    (ipfsHash url : String) (initialBuyoutPriceInWeiPerPixel sender value : Nat) :
    Except Err PurchaseOutcome :=
  match validatePurchases s purchase purchasedAreas areaIndices value with
  | .error e => .error e
  | .ok (initialPurchasePrice, payouts) =>
    let newZoneId := s.ownership.length
    let holes2 := areaIndices.foldl
      (fun hs idx => updMap hs idx (hs idx ++ [newZoneId]))
      (updMap s.holes newZoneId [])
    let newZone : ZoneOwnership :=
      ⟨(parseTarget purchase).x, (parseTarget purchase).y,
       (parseTarget purchase).w, (parseTarget purchase).h, sender⟩
    .ok ⟨{ ownership := s.ownership ++ [newZone]
           data := updMap s.data newZoneId ⟨ipfsHash, url⟩
           tokenIdToAuction := updMap s.tokenIdToAuction newZoneId
             initialBuyoutPriceInWeiPerPixel
           holes := holes2 },
         payouts, initialPurchasePrice, newZoneId⟩

/-- Transaction-level semantics of purchaseAreaWithData: the EVM
commits the new storage on success and reverts every write on failure,
leaving the pre-state. -/
def purchaseStep (s : GridState) (purchase purchasedAreas areaIndices : List Nat)
    (ipfsHash url : String) (initialBuyoutPriceInWeiPerPixel sender value : Nat) :
    GridState :=
  match purchaseAreaWithData s purchase purchasedAreas areaIndices ipfsHash url
      initialBuyoutPriceInWeiPerPixel sender value with
  | .ok out => out.state
  | .error _ => s

/-- setAuctionPrice of EthGrid.sol (lines 130 to 136): index in range
and caller is the record owner. -/
def setAuctionPrice (s : GridState) (zoneIndex newPriceInWeiPerPixel sender : Nat) :
    Except Err GridState :=
  match s.ownership[zoneIndex]? with
  | none => .error .unknownRecord
  | some z =>
    if sender = z.owner then
      .ok { s with
            tokenIdToAuction := updMap s.tokenIdToAuction zoneIndex newPriceInWeiPerPixel }
    else .error .notOwner

/-- updateAuction of EthGrid.sol (lines 125 to 128); the emitted event
carries no storage effect. -/
def updateAuction (s : GridState) (zoneIndex newPriceInWeiPerPixel sender : Nat) :
    Except Err GridState :=
  setAuctionPrice s zoneIndex newPriceInWeiPerPixel sender

/-- Transaction-level semantics of updateAuction: revert keeps the
pre-state. -/
def auctionStep (s : GridState) (zoneIndex newPriceInWeiPerPixel sender : Nat) :
    GridState :=
  match updateAuction s zoneIndex newPriceInWeiPerPixel sender with
  | .ok s2 => s2
  | .error _ => s

/-- ownershipLength of EthGrid.sol (lines 164 to 166). -/
def ownershipLength (s : GridState) : Nat :=
  s.ownership.length

/-- The public getter of the ownership array: returns the record stored
at an index, or nothing when the index is out of range (the generated
Solidity getter reverts there). -/
def getRecord (s : GridState) (i : Nat) : Option ZoneOwnership :=
  s.ownership[i]?

/-- Success test on a contract call result. -/
def isOkE {α : Type} : Except Err α → Bool
  | .ok _ => true
  | .error _ => false

/-- Total price extractor of a purchase result (0 on failure). -/
def totalPriceOf : Except Err PurchaseOutcome → Nat
  | .ok out => out.totalPrice
  | .error _ => 0

/-- Payout-list extractor of a purchase result (empty on failure). -/
def payoutsOf : Except Err PurchaseOutcome → List Payout
  | .ok out => out.payouts
  | .error _ => []

/-- The exact integer total of a tiling priced from state s: the sum
over pieces of piece area times the per-pixel auction price of the zone
it is attributed to. -/
def sumPrices (s : GridState) : List (Rect × Nat) → Nat
  | [] => 0
  | (r, idx) :: rest => r.w * r.h * s.tokenIdToAuction idx + sumPrices s rest

/-- Occurrence count of a key in a list of indices. -/
def countOcc (k : Nat) : List Nat → Nat
  | [] => 0
  | a :: rest => (if a = k then 1 else 0) + countOcc k rest

/-- The record invariant of spec section 3: positive extent and
containment in the grid, as unbounded-integer inequalities. -/
def zoneInv (z : ZoneOwnership) : Prop :=
  0 < z.w ∧ 0 < z.h ∧ z.x + z.w ≤ GRID_WIDTH ∧ z.y + z.h ≤ GRID_HEIGHT

/-- Every record of the ledger satisfies the record invariant. -/
def ledgerInv (s : GridState) : Prop :=
  ∀ z ∈ s.ownership, zoneInv z

/-- One committed state-changing transaction of the contract: a
successful purchaseAreaWithData or a successful updateAuction. The
withdraw operation moves only the contract balance and does not touch
this storage. -/
inductive Step : GridState → GridState → Prop where
  | purchase {s : GridState} (purchase purchasedAreas areaIndices : List Nat)
      (ipfsHash url : String) (initialBuyoutPriceInWeiPerPixel sender value : Nat)
      (out : PurchaseOutcome)
      (h : purchaseAreaWithData s purchase purchasedAreas areaIndices ipfsHash url
            initialBuyoutPriceInWeiPerPixel sender value = .ok out) :
      Step s out.state
  | auction {s s2 : GridState} (zoneIndex newPriceInWeiPerPixel sender : Nat)
      (h : updateAuction s zoneIndex newPriceInWeiPerPixel sender = .ok s2) :
      Step s s2

/-- States reachable from a deployed contract by committed
transactions. -/
def Reachable (s0 s : GridState) : Prop :=
  Relation.ReflTransGen Step s0 s

/-- Scenario fixture: the contract as deployed by admin address 1. The
single record 0 covers the whole grid at 20000 gwei per pixel. -/
def sA : GridState := initialState 1

/-- Scenario fixture: after buyer 2 purchases the single pixel (0,0)
from record 0 for its exact price 20000 gwei plus the 1 percent fee,
posting record 1 for sale at 5 wei per pixel. -/
def sB : GridState :=
  purchaseStep sA [0, 0, 1, 1] [0, 0, 1, 1] [0] "a" "b" 5 2 20200000000000

/-- Scenario fixture: after buyer 2 purchases the 50 pixel strip
(0,0,50,1) from record 0, posting record 1 for sale at 1 wei per
pixel. -/
def sC : GridState :=
  purchaseStep sA [0, 0, 50, 1] [0, 0, 50, 1] [0] "a" "b" 1 2 1010000000000000

/-- Scenario fixture: after the admin cancels the auction of record 0
by setting its price to 0 (not for sale). -/
def sZ : GridState := auctionStep sA 0 0 1

/-- A checked addition that returned a value returned the exact sum. -/
theorem safeAdd_some {a b c : Nat} (h : safeAdd a b = some c) : c = a + b := by
  unfold safeAdd at h
  split at h
  · injection h with h2; exact h2.symm
  · simp at h

/-- A checked subtraction that returned a value did not underflow and
returned the exact difference. -/
theorem safeSub_some {a b c : Nat} (h : safeSub a b = some c) : b ≤ a ∧ c = a - b := by
  unfold safeSub at h
  split at h
  · rename_i hle; injection h with h2; exact ⟨hle, h2.symm⟩
  · simp at h

/-- A checked multiplication that returned a value returned the exact
product. -/
theorem safeMul_some {a b c : Nat} (h : safeMul a b = some c) : c = a * b := by
  unfold safeMul at h
  split at h
  · injection h with h2; exact h2.symm
  · simp at h

/-- An index answered by a list lookup is below the length. -/
theorem getElemOpt_lt {α : Type} {l : List α} {i : Nat} {a : α}
    (h : l[i]? = some a) : i < l.length := by
  by_contra hh
  push_neg at hh
  rw [List.getElem?_eq_none hh] at h
  simp at h

/-- A successful zone pricing call certifies a positive per-pixel price
and returns exactly area times price. -/
theorem getPrice_ok {s : GridState} {r : Rect} {idx p : Nat}
    (h : getPriceOfAuctionedZone s r idx = .ok p) :
    0 < s.tokenIdToAuction idx ∧ p = r.w * r.h * s.tokenIdToAuction idx := by
  unfold getPriceOfAuctionedZone at h
  split at h
  · rename_i hpos
    split at h
    · simp at h
    · rename_i wh hwh
      split at h
      · simp at h
      · rename_i p2 hp2
        injection h with h2
        subst h2
        exact ⟨hpos, by rw [safeMul_some hp2, safeMul_some hwh]⟩
  · simp at h

/-- A successful settlement loop consumed exactly the summed piece
prices from the running balance, and every piece it visited referenced
an existing record with a positive auction price. -/
theorem distLoop_ok {s : GridState} {tr : Rect} :
    ∀ (pairs : List (Rect × Nat)) (rb owed : Nat) (po : List Payout) (d : DistOut),
      distLoop s tr pairs rb owed po = .ok d →
      rb = d.remainingBalance + sumPrices s pairs ∧
      ∀ pr ∈ pairs, 0 < s.tokenIdToAuction pr.2 ∧ pr.2 < s.ownership.length := by
  intro pairs
  induction pairs with
  | nil =>
    intro rb owed po d h
    unfold distLoop at h
    injection h with h2
    constructor
    · rw [← h2]; simp [sumPrices]
    · intro pr hpr; simp at hpr
  | cons hd rest ih =>
    obtain ⟨r, i⟩ := hd
    intro rb owed po d h
    unfold distLoop at h
    split at h
    · simp at h
    · rename_i zone hzone
      split at h
      · split at h
        · split at h
          · simp at h
          · split at h
            · simp at h
            · rename_i sectionPrice hprice
              split at h
              · simp at h
              · rename_i rb2 hsub
                split at h
                · simp at h
                · rename_i owed2 hadd
                  have hbound : i < s.ownership.length := getElemOpt_lt hzone
                  have hps := getPrice_ok hprice
                  have hss := safeSub_some hsub
                  have hrec : rb = rb2 + sectionPrice := by omega
                  split at h
                  all_goals {
                    obtain ⟨hrem, hmem⟩ := ih _ _ _ _ h
                    constructor
                    · simp only [sumPrices]
                      rw [← hps.2]
                      omega
                    · intro pr hpr
                      rcases List.mem_cons.mp hpr with hpr | hpr
                      · subst hpr; exact ⟨hps.1, hbound⟩
                      · exact hmem pr hpr
                  }
        · simp at h
      · simp at h

/-- Inversion of a successful validatePurchases call: all structural
checks passed, funds were distributed, the returned price is the value
consumed by the distribution, and the residual covered the required
fee. -/
theorem validatePurchases_ok {s : GridState} {p pa ai : List Nat} {v tp : Nat}
    {po : List Payout}
    (h : validatePurchases s p pa ai v = .ok (tp, po)) :
    p.length = 4 ∧
    rectInGridBounds (parseTarget p) = true ∧
    (parseTarget p).w * (parseTarget p).h < MAXIMUM_PURCHASE_AREA ∧
    tilingShapeOk pa ai = true ∧
    ∃ dout : DistOut,
      distributePurchaseFunds s (parseTarget p) ((parseRects pa).zip ai) v = .ok dout ∧
      po = dout.payouts ∧
      dout.remainingBalance ≤ v ∧
      tp = v - dout.remainingBalance ∧
      tp * FEE_IN_THOUSANDS_OF_PERCENT / (1000 * 100) ≤ dout.remainingBalance := by
  unfold validatePurchases at h
  split at h
  · rename_i hlen
    split at h
    · rename_i hbounds
      split at h
      · rename_i harea
        split at h
        · rename_i hshape
          split at h
          · simp at h
          · rename_i totalArea hcp
            split at h
            · split at h
              · split at h
                · simp at h
                · rename_i dout hdist
                  split at h
                  · simp at h
                  · rename_i pp hsub
                    split at h
                    · simp at h
                    · rename_i feeNum hmul
                      split at h
                      · rename_i hfee
                        injection h with h2
                        injection h2 with h3 h4
                        subst h3
                        subst h4
                        have hss := safeSub_some hsub
                        refine ⟨hlen, hbounds, harea, hshape, dout, hdist, rfl, hss.1, hss.2, ?_⟩
                        rw [← safeMul_some hmul]
                        exact hfee
                      · simp at h
              · simp at h
            · simp at h
        · simp at h
      · simp at h
    · simp at h
  · simp at h

/-- Inversion of a successful purchaseAreaWithData call: validation
succeeded and the new storage is the old storage with the new record
appended, the metadata and auction entries set, and a hole
back-reference pushed for every entry of areaIndices. -/
theorem purchase_ok {s : GridState} {p pa ai : List Nat} {ihs u : String}
    {ib sd v : Nat} {out : PurchaseOutcome}
    (h : purchaseAreaWithData s p pa ai ihs u ib sd v = .ok out) :
    ∃ tp po, validatePurchases s p pa ai v = .ok (tp, po) ∧
      out.totalPrice = tp ∧ out.payouts = po ∧
      out.newZoneId = s.ownership.length ∧
      out.state.ownership = s.ownership ++
        [⟨(parseTarget p).x, (parseTarget p).y, (parseTarget p).w,
          (parseTarget p).h, sd⟩] ∧
      out.state.holes = ai.foldl
        (fun hs idx => updMap hs idx (hs idx ++ [s.ownership.length]))
        (updMap s.holes s.ownership.length []) := by
  unfold purchaseAreaWithData at h
  split at h
  · simp at h
  · rename_i tp po hv
    refine ⟨tp, po, hv, ?_⟩
    injection h with h2
    subst h2
    exact ⟨rfl, rfl, rfl, rfl, rfl⟩

/-- A call reported successful produced some outcome. -/
theorem isOkE_true {α : Type} {r : Except Err α} (h : isOkE r = true) :
    ∃ a, r = .ok a := by
  cases r with
  | ok a => exact ⟨a, rfl⟩
  | error e => simp [isOkE] at h

/-- On success the transaction step commits exactly the outcome
state. -/
theorem purchaseStep_ok {s : GridState} {p pa ai : List Nat} {ihs u : String}
    {ib sd v : Nat} {out : PurchaseOutcome}
    (h : purchaseAreaWithData s p pa ai ihs u ib sd v = .ok out) :
    purchaseStep s p pa ai ihs u ib sd v = out.state := by
  unfold purchaseStep
  rw [h]

/-- Length of the rectangle list decoded from purchasedAreas: one
rectangle per four calldata words. -/
theorem parseRects_length : ∀ (l : List Nat), (parseRects l).length = l.length / 4
  | [] => by simp [parseRects]
  | [x] => by simp [parseRects]
  | [x, y] => by simp [parseRects]
  | [x, y, w] => by simp [parseRects]
  | x :: y :: w :: h :: rest => by
      simp only [parseRects, List.length_cons]
      rw [parseRects_length rest]
      omega

/-- Every element of the right list of a zip of equal-length lists
appears as the second component of a zip element. -/
theorem mem_zip_of_mem_right {α β : Type} : ∀ {l1 : List α} {l2 : List β} {b : β},
    l1.length = l2.length → b ∈ l2 → ∃ a, (a, b) ∈ l1.zip l2 := by
  intro l1 l2
  induction l2 generalizing l1 with
  | nil => intro b _ hb; simp at hb
  | cons hd tl ih =>
    intro b hlen hb
    cases l1 with
    | nil => simp at hlen
    | cons a1 t1 =>
      rcases List.mem_cons.mp hb with hb | hb
      · subst hb
        exact ⟨a1, by simp [List.zip_cons_cons]⟩
      · obtain ⟨a, ha⟩ := ih (by simpa using hlen) hb
        exact ⟨a, by simp [List.zip_cons_cons, ha]⟩

/-- Effect of the hole-pushing fold of purchaseAreaWithData on an
arbitrary key: the new id is appended once per occurrence of the key in
areaIndices. -/
theorem foldlPush (n : Nat) : ∀ (l : List Nat) (hs : Nat → List Nat) (k : Nat),
    (l.foldl (fun hs2 idx => updMap hs2 idx (hs2 idx ++ [n])) hs) k
      = hs k ++ List.replicate (countOcc k l) n := by
  intro l
  induction l with
  | nil => intro hs k; simp [countOcc]
  | cons a rest ih =>
    intro hs k
    simp only [List.foldl_cons]
    rw [ih]
    by_cases hak : a = k
    · subst hak
      simp [updMap, countOcc, List.replicate_succ, Nat.add_comm, List.append_assoc]
    · simp [updMap, countOcc, hak, Ne.symm hak]

/-- A key absent from a list has occurrence count zero. -/
theorem countOcc_eq_zero {k : Nat} : ∀ {l : List Nat},
    (∀ a ∈ l, a ≠ k) → countOcc k l = 0 := by
  intro l
  induction l with
  | nil => intro _; rfl
  | cons a rest ih =>
    intro h
    simp [countOcc, h a (List.mem_cons_self a rest),
      ih fun b hb => h b (List.mem_cons_of_mem a hb)]

/-- The grid-bounds checks of validatePurchases certify the record
invariant for the rectangle being purchased. -/
theorem zoneInv_of_bounds {tr : Rect} (hb : rectInGridBounds tr = true) (sd : Nat) :
    zoneInv ⟨tr.x, tr.y, tr.w, tr.h, sd⟩ := by
  simp only [rectInGridBounds, Bool.and_eq_true, decide_eq_true_eq] at hb
  obtain ⟨⟨⟨⟨⟨hx, hy⟩, hw⟩, hwx⟩, hh⟩, hhy⟩ := hb
  exact ⟨hw, hh, (by omega : tr.x + tr.w ≤ GRID_WIDTH),
    (by omega : tr.y + tr.h ≤ GRID_HEIGHT)⟩

/-- C1: every call to purchaseAreaWithData that fails, for any reason,
leaves the whole ledger state — the ownership record array, every hole
set, every auction price and every metadata entry — exactly as it was
before the call, and no payout is observable. The transaction step
function expresses the EVM rule that a reverted transaction commits
none of its writes. -/
theorem C1_purchase_atomicity (s : GridState) (p pa ai : List Nat) (ihs u : String)
    (ib sd v : Nat) (e : Err)
    (h : purchaseAreaWithData s p pa ai ihs u ib sd v = .error e) :
    purchaseStep s p pa ai ihs u ib sd v = s ∧
    payoutsOf (purchaseAreaWithData s p pa ai ihs u ib sd v) = [] := by
  unfold purchaseStep payoutsOf
  rw [h]
  exact ⟨rfl, rfl⟩

/-- Witness for C1 at a concrete failing input: a malformed purchase
array is rejected and the deployed state is returned unchanged with no
payouts. -/
theorem C1_witness :
    purchaseAreaWithData sA [] [] [] "" "" 0 0 0 = .error .tilingShapeError ∧
    (purchaseStep sA [] [] [] "" "" 0 0 0 = sA ∧
     payoutsOf (purchaseAreaWithData sA [] [] [] "" "" 0 0 0) = []) :=
  ⟨by rfl, C1_purchase_atomicity sA [] [] [] "" "" 0 0 0 .tilingShapeError (by rfl)⟩

/-- C2 counterexample: from state sB (records 0 and 1), the purchase of
(0,0,3,1) tiled by three unit pieces attributed to records 0, 1, 0 — the
same ownerRecordId at non-contiguous positions of areaIndices, otherwise
geometrically valid — is accepted, not rejected: the contract performs
no contiguity check. -/
theorem C2_counterexample :
    isOkE (purchaseAreaWithData sB [0, 0, 3, 1]
      [1, 0, 1, 1, 0, 0, 1, 1, 2, 0, 1, 1] [0, 1, 0] "c" "d" 7 3
      40400000000005) = true := by
  rfl

/-- C2 amended: a tiling naming the same ownerRecordId at
non-contiguous positions is accepted when otherwise valid; the
settlement loop flushes a payout at every change of owner, so record 0
is paid once per contiguous run (twice here) and the totals are
unaffected. -/
theorem C2_amended :
    payoutsOf (purchaseAreaWithData sB [0, 0, 3, 1]
      [1, 0, 1, 1, 0, 0, 1, 1, 2, 0, 1, 1] [0, 1, 0] "c" "d" 7 3
      40400000000005)
      = [(0, 20000000000000, 1), (1, 5, 2), (0, 20000000000000, 1)] := by
  rfl

/-- C3 counterexample: the in-bounds target rectangle (0,0,40,25) with
area exactly MAXIMUM_PURCHASE_AREA is rejected with the bounds error,
so the validator does not admit every in-bounds target of area at most
MAXIMUM_PURCHASE_AREA. -/
theorem C3_counterexample :
    validatePurchases sA [0, 0, 40, 25] [0, 0, 40, 25] [0] 20179800000000000
      = .error .boundsError := by
  rfl

/-- C3 amended: the area precondition is strict: an in-bounds target
with area MAXIMUM_PURCHASE_AREA - 1 passes the first precondition (and
the shown purchase succeeds end to end), while every in-bounds target
with area at least MAXIMUM_PURCHASE_AREA is rejected with the bounds
error. -/
theorem C3_amended :
    isOkE (validatePurchases sA [0, 0, 37, 27] [0, 0, 37, 27] [0]
      20179800000000000) = true ∧
    ∀ (s : GridState) (p pa ai : List Nat) (v : Nat),
      p.length = 4 →
      rectInGridBounds (parseTarget p) = true →
      MAXIMUM_PURCHASE_AREA ≤ (parseTarget p).w * (parseTarget p).h →
      validatePurchases s p pa ai v = .error .boundsError := by
  constructor
  · rfl
  · intro s p pa ai v hlen hb harea
    have hnl : ¬ ((parseTarget p).w * (parseTarget p).h < MAXIMUM_PURCHASE_AREA) := by
      omega
    simp [validatePurchases, hlen, hb, hnl]

/-- Witness for C3 at a concrete input: the rectangle (0,0,40,25) is in
bounds, has area MAXIMUM_PURCHASE_AREA, and is rejected with the bounds
error. -/
theorem C3_witness :
    (([0, 0, 40, 25] : List Nat).length = 4 ∧
     rectInGridBounds (parseTarget [0, 0, 40, 25]) = true ∧
     MAXIMUM_PURCHASE_AREA ≤
       (parseTarget [0, 0, 40, 25]).w * (parseTarget [0, 0, 40, 25]).h) ∧
    validatePurchases sA [0, 0, 40, 25] [0, 0, 40, 25] [0] 0 = .error .boundsError :=
  ⟨⟨by rfl, by rfl, by decide⟩,
   C3_amended.2 sA [0, 0, 40, 25] [0, 0, 40, 25] [0] 0 (by rfl) (by rfl) (by decide)⟩

/-- C4 counterexample: from state sC, buyer 3 purchases the strip
(0,0,50,1) from record 1 (priced 1 wei per pixel) with payment exactly
equal to the total price 50; the required fee 50 * 1000 / 100000 floors
to zero, so the purchase succeeds instead of failing with the
insufficient-fee error, although the configured fee rate is nonzero. -/
theorem C4_counterexample :
    validatePurchases sC [0, 0, 50, 1] [0, 0, 50, 1] [1] 50
      = .ok (50, [(1, 50, 2)]) := by
  rfl

/-- C4 amended: with the fee rate constant 1000 (1 percent), a purchase
whose payment exactly equals the total price can only succeed when the
floored required fee is zero, that is when the total price is below
100 wei; for larger totals exact payment fails with the
insufficient-fee error, as shown at total 20000 gwei. -/
theorem C4_amended :
    (∀ (s : GridState) (p pa ai : List Nat) (tp : Nat) (po : List Payout),
        validatePurchases s p pa ai tp = .ok (tp, po) → tp < 100) ∧
    validatePurchases sA [0, 0, 1, 1] [0, 0, 1, 1] [0] 20000000000000
      = .error .insufficientFee := by
  constructor
  · intro s p pa ai tp po h
    obtain ⟨-, -, -, -, dout, -, -, hle, htp, hfee⟩ := validatePurchases_ok h
    have hrem : dout.remainingBalance = 0 := by omega
    rw [hrem] at hfee
    have h0 : tp * FEE_IN_THOUSANDS_OF_PERCENT / (1000 * 100) = 0 :=
      Nat.le_zero.mp hfee
    have hlt : tp * FEE_IN_THOUSANDS_OF_PERCENT < 1000 * 100 :=
      (Nat.div_eq_zero_iff (by decide)).mp h0
    have hfv : FEE_IN_THOUSANDS_OF_PERCENT = 1000 := rfl
    rw [hfv] at hlt
    omega
  · rfl

/-- Witness for C4 at a concrete input: the exact-payment purchase of
total price 50 succeeds, and the theorem concludes its total is below
100. -/
theorem C4_witness :
    validatePurchases sC [0, 0, 50, 1] [0, 0, 50, 1] [1] 50
      = .ok (50, [(1, 50, 2)]) ∧ 50 < 100 :=
  ⟨by rfl, C4_amended.1 sC [0, 0, 50, 1] [0, 0, 50, 1] [1] 50 [(1, 50, 2)] (by rfl)⟩

/-- C5: for every successful purchase the charged total price equals
the exact integer sum over the tiling of piece width times piece height
times the per-pixel price of the attributed record, with no rounding
loss, and every attributed record had a positive price — a zero price
makes the purchase fail instead, with the not-for-sale error as shown
in the concrete conjunct. -/
theorem C5_exact_pricing :
    (∀ (s : GridState) (p pa ai : List Nat) (ihs u : String) (ib sd v : Nat),
        isOkE (purchaseAreaWithData s p pa ai ihs u ib sd v) = true →
        totalPriceOf (purchaseAreaWithData s p pa ai ihs u ib sd v)
            = sumPrices s ((parseRects pa).zip ai) ∧
        ∀ pr ∈ (parseRects pa).zip ai, 0 < s.tokenIdToAuction pr.2) ∧
    validatePurchases sZ [0, 0, 1, 1] [0, 0, 1, 1] [0] 20200000000000
      = .error .notForSale := by
  constructor
  · intro s p pa ai ihs u ib sd v hok
    obtain ⟨out, hout⟩ := isOkE_true hok
    obtain ⟨tp, po, hv, htp, -, -, -, -⟩ := purchase_ok hout
    obtain ⟨-, -, -, -, dout, hdist, -, hle, hva, -⟩ := validatePurchases_ok hv
    unfold distributePurchaseFunds at hdist
    obtain ⟨hrem, hmem⟩ := distLoop_ok _ _ _ _ _ hdist
    constructor
    · rw [hout]
      show out.totalPrice = _
      omega
    · intro pr hpr
      exact (hmem pr hpr).1
  · rfl

/-- Witness for C5 at a concrete input: the pixel purchase from the
deployed state is charged exactly 1 * 1 * 20000 gwei. -/
theorem C5_witness :
    isOkE (purchaseAreaWithData sA [0, 0, 1, 1] [0, 0, 1, 1] [0] "a" "b" 5 2
      20200000000000) = true ∧
    totalPriceOf (purchaseAreaWithData sA [0, 0, 1, 1] [0, 0, 1, 1] [0] "a" "b" 5 2
      20200000000000) = sumPrices sA ((parseRects [0, 0, 1, 1]).zip [0]) :=
  ⟨by rfl, (C5_exact_pricing.1 sA [0, 0, 1, 1] [0, 0, 1, 1] [0] "a" "b" 5 2
    20200000000000 (by rfl)).1⟩

/-- C6 counterexample: a successful purchase of (0,0,2,1) tiled by two
pieces both attributed to record 0 appends the new id 1 twice to the
hole set of record 0 — one entry per piece, not one entry per distinct
owner as claimed. -/
theorem C6_counterexample :
    isOkE (purchaseAreaWithData sA [0, 0, 2, 1] [0, 0, 1, 1, 1, 0, 1, 1] [0, 0]
      "a" "b" 5 2 40400000000000) = true ∧
    (purchaseStep sA [0, 0, 2, 1] [0, 0, 1, 1, 1, 0, 1, 1] [0, 0]
      "a" "b" 5 2 40400000000000).holes 0 = [1, 1] :=
  ⟨by rfl, by rfl⟩

/-- C6 amended: after every successful purchase the new record's id has
been appended to the hole set of each record id once per occurrence of
that id in areaIndices (so an owner referenced by several pieces
receives duplicate entries), every other hole set is unchanged, and the
new record's own hole set is empty. -/
theorem C6_amended (s : GridState) (p pa ai : List Nat) (ihs u : String)
    (ib sd v : Nat)
    (hok : isOkE (purchaseAreaWithData s p pa ai ihs u ib sd v) = true) :
    (purchaseStep s p pa ai ihs u ib sd v).holes (ownershipLength s) = [] ∧
    ∀ k, k ≠ ownershipLength s →
      (purchaseStep s p pa ai ihs u ib sd v).holes k
        = s.holes k ++ List.replicate (countOcc k ai) (ownershipLength s) := by
  unfold ownershipLength
  obtain ⟨out, hout⟩ := isOkE_true hok
  obtain ⟨tp, po, hv, -, -, -, -, hholes⟩ := purchase_ok hout
  have hstep := purchaseStep_ok hout
  obtain ⟨-, -, -, hshape, dout, hdist, -, -, -, -⟩ := validatePurchases_ok hv
  have hlen : (parseRects pa).length = ai.length := by
    have hpr := parseRects_length pa
    simp only [tilingShapeOk, Bool.and_eq_true, decide_eq_true_eq] at hshape
    omega
  unfold distributePurchaseFunds at hdist
  obtain ⟨-, hmem⟩ := distLoop_ok _ _ _ _ _ hdist
  have hai : ∀ k ∈ ai, k < s.ownership.length := by
    intro k hk
    obtain ⟨r, hr⟩ := mem_zip_of_mem_right hlen hk
    exact (hmem (r, k) hr).2
  rw [hstep, hholes]
  constructor
  · rw [foldlPush]
    have h0 : countOcc (s.ownership.length) ai = 0 :=
      countOcc_eq_zero (fun a ha => by have := hai a ha; omega)
    simp [updMap, h0]
  · intro k hk
    rw [foldlPush]
    simp [updMap, hk]

/-- Witness for C6 at a concrete input: the two-piece purchase from the
deployed state succeeds and the new record's own hole set is empty. -/
theorem C6_witness :
    isOkE (purchaseAreaWithData sA [0, 0, 2, 1] [0, 0, 1, 1, 1, 0, 1, 1] [0, 0]
      "a" "b" 5 2 40400000000000) = true ∧
    (purchaseStep sA [0, 0, 2, 1] [0, 0, 1, 1, 1, 0, 1, 1] [0, 0]
      "a" "b" 5 2 40400000000000).holes (ownershipLength sA) = [] :=
  ⟨by rfl, (C6_amended sA [0, 0, 2, 1] [0, 0, 1, 1, 1, 0, 1, 1] [0, 0]
    "a" "b" 5 2 40400000000000 (by rfl)).1⟩

/-- A successful auction update does not touch the ownership array. -/
theorem setAuctionPrice_ownership {s s2 : GridState} {zi np sd : Nat}
    (h : setAuctionPrice s zi np sd = .ok s2) : s2.ownership = s.ownership := by
  unfold setAuctionPrice at h
  split at h
  · simp at h
  · split at h
    · injection h with h2
      subst h2
      rfl
    · simp at h

/-- C7: every ownership record ever present in the ledger — the record
created at construction and every record appended by a successful
purchase — has positive width and height and lies inside the grid, as
unbounded-integer inequalities, and every state-changing operation
preserves this invariant. -/
theorem C7_ledger_invariant (admin : Nat) (s : GridState)
    (h : Reachable (initialState admin) s) : ledgerInv s := by
  unfold Reachable at h
  induction h with
  | refl =>
    intro z hz
    simp [initialState] at hz
    subst hz
    exact ⟨(by decide : 0 < GRID_WIDTH), (by decide : 0 < GRID_HEIGHT),
      (by decide : 0 + GRID_WIDTH ≤ GRID_WIDTH),
      (by decide : 0 + GRID_HEIGHT ≤ GRID_HEIGHT)⟩
  | tail hsteps hstep ih =>
    cases hstep with
    | purchase p pa ai ihs u ib sd v out hok =>
      obtain ⟨tp, po, hv, -, -, -, hown, -⟩ := purchase_ok hok
      obtain ⟨-, hb, -, -, -⟩ := validatePurchases_ok hv
      intro z hz
      rw [hown] at hz
      rcases List.mem_append.mp hz with hz | hz
      · exact ih z hz
      · simp at hz
        subst hz
        exact zoneInv_of_bounds hb sd
    | auction zi np sd hok =>
      intro z hz
      apply ih z
      rw [← setAuctionPrice_ownership hok]
      exact hz

/-- Witness for C7 at a concrete state: the deployed state is reachable
and satisfies the ledger invariant. -/
theorem C7_witness :
    Reachable (initialState 1) sA ∧ ledgerInv sA :=
  ⟨Relation.ReflTransGen.refl, C7_ledger_invariant 1 sA Relation.ReflTransGen.refl⟩

/-- C8: exhibit of the unchecked coordinate arithmetic flagged by the
TODO Safe Math comment at line 282 of EthGrid.sol. The piece rectangle
(2 ^ 256 - 1, 0, 1, 1) has x + w equal to 2 ^ 256, beyond the uint256
range, yet the containment checks compute the sum modulo 2 ^ 256 (it
wraps to 0) and the purchase succeeds end to end instead of failing
with an overflow error. -/
theorem C8_unchecked_wrap :
    isOkE (purchaseAreaWithData sA [0, 0, 1, 1] [2 ^ 256 - 1, 0, 1, 1] [0]
      "a" "b" 5 2 20200000000000) = true ∧
    ¬ (2 ^ 256 - 1) + 1 < U256 :=
  ⟨by rfl, by decide⟩

/-- C9: after every successful purchase, reading the record at the
index that was the record count before the call returns exactly the
submitted target rectangle with the buyer as owner, and the record
count has grown by exactly one. -/
theorem C9_roundtrip (s : GridState) (p pa ai : List Nat) (ihs u : String)
    (ib sd v : Nat)
    (hok : isOkE (purchaseAreaWithData s p pa ai ihs u ib sd v) = true) :
    getRecord (purchaseStep s p pa ai ihs u ib sd v) (ownershipLength s)
      = some ⟨(parseTarget p).x, (parseTarget p).y, (parseTarget p).w,
          (parseTarget p).h, sd⟩ ∧
    ownershipLength (purchaseStep s p pa ai ihs u ib sd v)
      = ownershipLength s + 1 := by
  unfold ownershipLength
  obtain ⟨out, hout⟩ := isOkE_true hok
  obtain ⟨tp, po, hv, -, -, -, hown, -⟩ := purchase_ok hout
  rw [purchaseStep_ok hout]
  unfold getRecord
  rw [hown]
  constructor
  · exact List.getElem?_concat_length _ _
  · simp

/-- Witness for C9 at a concrete input: after buyer 2 purchases
(0,0,1,1) from the deployed state, record 1 is exactly that rectangle
owned by 2. -/
theorem C9_witness :
    isOkE (purchaseAreaWithData sA [0, 0, 1, 1] [0, 0, 1, 1] [0] "a" "b" 5 2
      20200000000000) = true ∧
    getRecord (purchaseStep sA [0, 0, 1, 1] [0, 0, 1, 1] [0] "a" "b" 5 2
      20200000000000) (ownershipLength sA)
      = some ⟨(parseTarget [0, 0, 1, 1]).x, (parseTarget [0, 0, 1, 1]).y,
          (parseTarget [0, 0, 1, 1]).w, (parseTarget [0, 0, 1, 1]).h, 2⟩ :=
  ⟨by rfl, (C9_roundtrip sA [0, 0, 1, 1] [0, 0, 1, 1] [0] "a" "b" 5 2
    20200000000000 (by rfl)).1⟩

/-- C10: no operation compares the buyer with a seller: the success,
payouts and total price of purchaseAreaWithData are independent of the
sender, and in the concrete conjunct the admin (owner of record 0)
purchases from their own record, the purchase succeeds, and the payout
goes to the admin themselves. -/
theorem C10_no_self_purchase_restriction :
    (∀ (s : GridState) (p pa ai : List Nat) (ihs u : String) (ib a b v : Nat),
        isOkE (purchaseAreaWithData s p pa ai ihs u ib a v)
          = isOkE (purchaseAreaWithData s p pa ai ihs u ib b v) ∧
        payoutsOf (purchaseAreaWithData s p pa ai ihs u ib a v)
          = payoutsOf (purchaseAreaWithData s p pa ai ihs u ib b v) ∧
        totalPriceOf (purchaseAreaWithData s p pa ai ihs u ib a v)
          = totalPriceOf (purchaseAreaWithData s p pa ai ihs u ib b v)) ∧
    (isOkE (purchaseAreaWithData sA [0, 0, 1, 1] [0, 0, 1, 1] [0] "a" "b" 5 1
      20200000000000) = true ∧
     payoutsOf (purchaseAreaWithData sA [0, 0, 1, 1] [0, 0, 1, 1] [0] "a" "b" 5 1
      20200000000000) = [(0, 20000000000000, 1)]) := by
  constructor
  · intro s p pa ai ihs u ib a b v
    unfold purchaseAreaWithData
    cases hv : validatePurchases s p pa ai v with
    | error e => exact ⟨rfl, rfl, rfl⟩
    | ok pr =>
      obtain ⟨tp, po⟩ := pr
      exact ⟨rfl, rfl, rfl⟩
  · exact ⟨by rfl, by rfl⟩


end EthGrid
